import Mathlib

/-!
Verification development for the `google-mcp-server` repository.

The embedding models the credential manager (`src/auth.js`) and the handler
template of the tool registrations (`src/tools/drive.js`,
`src/tools/calendar.js`).  JavaScript runtime values are modelled shallowly:
JSON objects become association lists of string keys, thrown exceptions become
`Except` errors carrying the thrown `Error`'s `message` (and its `String(e)`
rendering as `display`), and environmental effects (file system contents,
remote call outcomes, the wall clock) are inputs of the modelled functions.
-/

set_option autoImplicit false

namespace GoogleMcp

/-- A JSON / JavaScript primitive value as it occurs in the token-cache file. -/
inductive JsVal where
  | str (s : String)
  | num (n : Int)
  | bool (b : Bool)
  | null
  deriving DecidableEq, Repr

/-- JavaScript truthiness of a `JsVal` (used by the `x || y` idiom). -/
def JsVal.truthy : JsVal → Bool
  | .str s => s != ""
  | .num n => n != 0
  | .bool b => b
  | .null => false

/-- A JavaScript object with string-valued keys, in property-insertion order.
This models the result of `JSON.parse` on a JSON object as well as the
token payload the OAuth library passes to the `tokens` listener. -/
abbrev JsObj := List (String × JsVal)

/-- Property lookup `o[key]`: the first entry with the given key
(JavaScript objects have unique keys, so "first" is exact). -/
def getKey : JsObj → String → Option JsVal
  | [], _ => none
  | (k, v) :: rest, key => if k = key then some v else getKey rest key

/-- Property update `o[key] = v`: overwrite the first entry holding `key`
in place (JavaScript keeps the original insertion position), or append a
new entry when the key is absent. -/
def setKey : JsObj → String → JsVal → JsObj
  | [], key, v => [(key, v)]
  | (k, w) :: rest, key, v =>
      if k = key then (key, v) :: rest else (k, w) :: setKey rest key v

/-- Object spread `{ ...a, ...b }` (src/auth.js line 41):
`a`'s entries, updated key-by-key with `b`'s entries, `b` winning. -/
def spread (a b : JsObj) : JsObj :=
  b.foldl (fun acc p => setKey acc p.1 p.2) a

/-- A thrown JavaScript `Error`: its `.message`, and its `String(e)`
rendering (`display`, supplied by the environment). -/
structure JsError where
  message : String
  display : String
  deriving DecidableEq, Repr

/-- The observable state of the token-cache file at `TOKEN_PATH`, by the
outcome the code can see: missing (`existsSync` false), present but
`readFileSync` throws, present but `JSON.parse` throws, or present and
parsing as a JSON object (the only parse outcome the spec's invariant
admits, and the one carrying data).  The carried `JsError` is the
environment-supplied exception. -/
inductive CacheFile where
  | absent
  | unreadable (e : JsError)
  | invalid (e : JsError)
  | parsed (o : JsObj)
  deriving DecidableEq, Repr

/-- The file-system facts the credential manager's code can observe:
the cache-file state, whether `TOKEN_PATH`'s parent directory exists, and
an optional environmental fault that makes `writeFileSync` throw even when
the directory is present (e.g. permissions, disk full). -/
structure Fs where
  dirExists : Bool
  file : CacheFile
  writeFailure : Option JsError
  deriving DecidableEq, Repr

/-- The error `writeFileSync` throws when the parent directory is missing
(modelled environmental message). -/
def enoentError : JsError :=
  { message := "ENOENT: no such file or directory"
  , display := "Error: ENOENT: no such file or directory" }

/-- `writeFileSync(TOKEN_PATH, JSON.stringify(updated, null, 2))`
(src/auth.js line 42): throws when the parent directory is missing or on an
environmental fault; on success the file afterwards parses back to the
written object. -/
def writeTokenFile (fs : Fs) (content : JsObj) : Except JsError Fs :=
  if fs.dirExists then
    match fs.writeFailure with
    | some e => .error e
    | none => .ok { fs with file := .parsed content }
  else .error enoentError

/-- `existsSync(TOKEN_PATH) ? JSON.parse(readFileSync(TOKEN_PATH, 'utf-8')) : {}`
(src/auth.js lines 38-40): a missing file yields the empty object; a read or
parse failure throws. -/
def readCacheOrEmpty (fs : Fs) : Except JsError JsObj :=
  match fs.file with
  | .absent => .ok []
  | .unreadable e => .error e
  | .invalid e => .error e
  | .parsed o => .ok o

/-- The body of the `try` block of the `tokens` listener
(src/auth.js lines 37-42): read-or-default, merge, write back; a thrown
read/parse error aborts the body before the write. -/
def tokensListenerBody (fs : Fs) (newTokens : JsObj) : Except JsError Fs :=
  match readCacheOrEmpty fs with
  | .error e => .error e
  | .ok existing => writeTokenFile fs (spread existing newTokens)

/-- The diagnostic line the `catch` writes to stderr
(src/auth.js line 44). -/
def tokenSaveLine (msg : String) : String :=
  "Token save error: " ++ msg ++ "\n"

/-- Result of one firing of the `tokens` listener: the file system
afterwards and the lines written to the process's stderr. -/
structure ListenerOutcome where
  fs : Fs
  stderr : List String
  deriving DecidableEq, Repr

/-- The whole `tokens` listener (src/auth.js lines 36-46): the body runs
under `try`; any thrown error is caught and logged to stderr, leaving the
file system as it was. -/
def tokensListener (fs : Fs) (newTokens : JsObj) : ListenerOutcome :=
  match tokensListenerBody fs newTokens with
  | .ok fs2 => { fs := fs2, stderr := [] }
  | .error e => { fs := fs, stderr := [tokenSaveLine e.message] }

/-- The in-memory credential state of the OAuth client, as set by
`setCredentials` (src/auth.js lines 28-33).  Fields absent from the parsed
file are `undefined` (`none`). -/
structure Credentials where
  access_token : Option JsVal
  refresh_token : Option JsVal
  token_type : JsVal
  expiry_date : Option JsVal
  deriving DecidableEq, Repr

/-- JavaScript `v || dflt` on a possibly-undefined value. -/
def jsOr (v : Option JsVal) (dflt : JsVal) : JsVal :=
  match v with
  | some x => if x.truthy then x else dflt
  | none => dflt

/-- The credentials object built from the parsed token file
(src/auth.js lines 28-33), including the `tokens.token_type || 'Bearer'`
defaulting. -/
def credentialsFrom (tokens : JsObj) : Credentials :=
  { access_token := getKey tokens "access_token"
  , refresh_token := getKey tokens "refresh_token"
  , token_type := jsOr (getKey tokens "token_type") (.str "Bearer")
  , expiry_date := getKey tokens "expiry_date" }

/-- The OAuth2 client object: constructor arguments, in-memory credentials
(`none` is the default empty state of a fresh client), and whether the
`tokens` listener has been registered on it. -/
structure OAuth2Client where
  clientId : String
  clientSecret : String
  credentials : Option Credentials
  listenerRegistered : Bool
  deriving DecidableEq, Repr

/-- `new google.auth.OAuth2(CLIENT_ID, CLIENT_SECRET)` (src/auth.js line 24). -/
def newOAuth2 (cid cs : String) : OAuth2Client :=
  { clientId := cid, clientSecret := cs
  , credentials := none, listenerRegistered := false }

/-- The module-level mutable `let oauth2Client = null` (src/auth.js line 19). -/
structure AuthGlobal where
  oauth2Client : Option OAuth2Client
  deriving DecidableEq, Repr

/-- The module's initial state: `oauth2Client` is `null`. -/
def authInit : AuthGlobal := { oauth2Client := none }

/-- `getAuth()` (src/auth.js lines 21-49) over the module state and the
observed cache-file state.  The global assignment at line 24 happens before
the file is read, so when `readFileSync`/`JSON.parse` throws at line 27 the
exception propagates while the global already holds the bare client (no
credentials, no listener).  Returns the module state afterwards and either
the returned client or the thrown error. -/
def getAuth (cid cs : String) (g : AuthGlobal) (file : CacheFile) :
    AuthGlobal × Except JsError OAuth2Client :=
  match g.oauth2Client with
  | some c => (g, .ok c)
  | none =>
    match file with
    | .absent =>
        let c := { newOAuth2 cid cs with listenerRegistered := true }
        ({ oauth2Client := some c }, .ok c)
    | .unreadable e => ({ oauth2Client := some (newOAuth2 cid cs) }, .error e)
    | .invalid e => ({ oauth2Client := some (newOAuth2 cid cs) }, .error e)
    | .parsed tokens =>
        let c := { newOAuth2 cid cs with
                     credentials := some (credentialsFrom tokens)
                   , listenerRegistered := true }
        ({ oauth2Client := some c }, .ok c)

/-- One token-refresh event: the wrapped OAuth library updates the client's
in-memory credentials and then emits `tokens`, running the registered
listener (src/auth.js lines 36-46), whose body never references the client. -/
def refreshEvent (c : OAuth2Client) (newCreds : Credentials) (fs : Fs)
    (newTokens : JsObj) : OAuth2Client × ListenerOutcome :=
  ({ c with credentials := some newCreds }, tokensListener fs newTokens)

/-! ## Startup (auth.js module-level check, index.js flow) -/

/-- The message written to stderr before `process.exit(1)`
(src/auth.js lines 12-15). -/
def requiredEnvMessage : String :=
  "ERROR: GOOGLE_CLIENT_ID and GOOGLE_CLIENT_SECRET environment variables are required.\nSee README.md for setup instructions.\n"

/-- JavaScript falsiness of `process.env.X` (`undefined` or the empty
string), as tested by `!CLIENT_ID || !CLIENT_SECRET` (src/auth.js line 11). -/
def jsFalsyEnv : Option String → Bool
  | none => true
  | some s => s == ""

/-- Observable outcome of starting the process: exit code (if it
terminated), stderr lines, the tool names registered into the dispatch
table, and whether the stdio transport was connected. -/
structure ProcessStart where
  exitCode : Option Nat
  stderr : List String
  toolsRegistered : List String
  connected : Bool
  deriving DecidableEq, Repr

/-- The tool registrations covered by this embedding (a subset of the 73
registered names; registration order follows index.js / the source files). -/
def modeledToolNames : List String :=
  ["drive_list", "calendar_list_events", "calendar_create_event"]

/-- Process startup: index.js imports auth.js, whose module-level check
(src/auth.js lines 11-17) runs before any `server.tool` registration and
before `server.connect(transport)`; if either environment variable is
falsy the process writes the diagnostic and exits with code 1, otherwise
registration and connection proceed. -/
def startServer (clientId clientSecret : Option String) : ProcessStart :=
  if jsFalsyEnv clientId || jsFalsyEnv clientSecret then
    { exitCode := some 1, stderr := [requiredEnvMessage]
    , toolsRegistered := [], connected := false }
  else
    { exitCode := none, stderr := []
    , toolsRegistered := modeledToolNames, connected := true }

/-! ## Tool results and error formatting -/

/-- An MCP tool result: the single text content entry and the `isError`
flag (drive.js lines 57-64, calendar.js catch blocks). -/
structure ToolResult where
  text : String
  isError : Bool
  deriving DecidableEq, Repr

/-- `success(text)` (src/tools/drive.js lines 57-59). -/
def success (text : String) : ToolResult := { text := text, isError := false }

/-- `e?.message || String(e)` (src/tools/drive.js line 62). -/
def driveErrorText (e : JsError) : String :=
  if e.message == "" then e.display else e.message

/-- `error(e)` (src/tools/drive.js lines 61-64). -/
def errorResult (e : JsError) : ToolResult :=
  { text := "Error: " ++ driveErrorText e, isError := true }

/-- The calendar handlers' catch result
(src/tools/calendar.js lines 67-72 and analogues). -/
def calendarErrorResult (e : JsError) : ToolResult :=
  { text := "Error: " ++ e.message, isError := true }

/-- Template rendering of a possibly-undefined string. -/
def jsShow : Option String → String
  | none => "undefined"
  | some s => s

/-- JavaScript truthiness of a possibly-undefined string. -/
def strTruthy : Option String → Bool
  | none => false
  | some s => s != ""

/-- JavaScript `a || b` on possibly-undefined strings. -/
def jsOrOpt (a b : Option String) : Option String :=
  if strTruthy a then a else b

/-- JavaScript `a || dflt` where `dflt` is a (truthy) string literal. -/
def jsOrStr (a : Option String) (dflt : String) : String :=
  match a with
  | some s => if s == "" then dflt else s
  | none => dflt

/-- JavaScript `n || dflt` on a possibly-undefined number. -/
def jsOrNum (n : Option Int) (dflt : Int) : Int :=
  match n with
  | some m => if m == 0 then dflt else m
  | none => dflt

/-! ## drive_list (src/tools/drive.js lines 154-190) -/

/-- The single-quote character. -/
def squote : Char := Char.ofNat 39

/-- The backslash character. -/
def backslash : Char := Char.ofNat 92

/-- `folder.replace(/'/g, "\\'")` over the character list: every
single-quote is replaced by backslash-then-quote. -/
def escChars : List Char → List Char
  | [] => []
  | c :: cs =>
      if c = squote then backslash :: squote :: escChars cs
      else c :: escChars cs

/-- `folder.replace(/'/g, "\\'")` (src/tools/drive.js line 168). -/
def escapeQuotes (s : String) : String := ⟨escChars s.data⟩

/-- `folderId || 'root'` (src/tools/drive.js line 165). -/
def driveListFolder (folderId : Option String) : String :=
  jsOrStr folderId "root"

/-- The query string built at src/tools/drive.js line 170:
a single-quoted escaped folder id followed by the fixed tail. -/
def driveListQuery (folderId : Option String) : String :=
  String.singleton squote ++ escapeQuotes (driveListFolder folderId) ++
    String.singleton squote ++ " in parents and trashed = false"

/-- The request `drive.files.list` receives from `drive_list`
(src/tools/drive.js lines 169-174). -/
structure DriveListRequest where
  q : String
  pageSize : Int
  fields : String
  orderBy : String
  deriving DecidableEq, Repr

/-- Construction of the `drive_list` remote request, including the
`maxResults || 20` page-size defaulting. -/
def driveListRequest (folderId : Option String) (maxResults : Option Int) :
    DriveListRequest :=
  { q := driveListQuery folderId
  , pageSize := jsOrNum maxResults 20
  , fields := "files(id,name,mimeType,modifiedTime,size,webViewLink)"
  , orderBy := "folder,name" }

/-- A Drive file resource as selected by the `fields` projection. -/
structure DriveFile where
  id : Option String
  name : Option String
  mimeType : Option String
  size : Option String
  modifiedTime : Option String
  webViewLink : Option String
  deriving DecidableEq, Repr

/-- `formatFileEntry(file)` (src/tools/drive.js lines 47-55). -/
def formatFileEntry (f : DriveFile) : String :=
  let parts := ["- " ++ jsShow f.name]
  let parts := if strTruthy f.id then parts ++ ["  ID: " ++ jsShow f.id] else parts
  let parts := if strTruthy f.mimeType then parts ++ ["  Type: " ++ jsShow f.mimeType] else parts
  let parts := if strTruthy f.size then parts ++ ["  Size: " ++ jsShow f.size ++ " bytes"] else parts
  let parts := if strTruthy f.modifiedTime then parts ++ ["  Modified: " ++ jsShow f.modifiedTime] else parts
  let parts := if strTruthy f.webViewLink then parts ++ ["  Link: " ++ jsShow f.webViewLink] else parts
  String.intercalate "\n" parts

/-- The success text of `drive_list` (src/tools/drive.js lines 176-185). -/
def driveListText (folder : String) (files : List DriveFile) : String :=
  if files.length = 0 then "No files found in this folder."
  else
    String.intercalate "\n"
      (("Listing " ++ toString files.length ++ " item(s) in folder " ++
          String.singleton squote ++ folder ++ String.singleton squote ++ ":\n") ::
        files.map formatFileEntry)

/-- The `drive_list` handler (src/tools/drive.js lines 162-189): acquire
the auth handle and issue the listing request inside `try`; any thrown
error becomes `error(e)`.  The auth outcome and the remote call are
environment inputs. -/
def driveListHandler (auth : Except JsError OAuth2Client)
    (remote : DriveListRequest → Except JsError (List DriveFile))
    (folderId : Option String) (maxResults : Option Int) : ToolResult :=
  match auth with
  | .error e => errorResult e
  | .ok _ =>
    match remote (driveListRequest folderId maxResults) with
    | .error e => errorResult e
    | .ok files => success (driveListText (driveListFolder folderId) files)

/-! ## calendar_list_events (src/tools/calendar.js lines 7-74) -/

/-- An event's start or end as returned by the Calendar API: a `dateTime`
for timed events or a `date` for all-day events. -/
structure CalTime where
  dateTime : Option String
  date : Option String
  deriving DecidableEq, Repr

/-- A calendar event as used by the listing formatter. -/
structure CalEvent where
  id : Option String
  summary : Option String
  start : CalTime
  end_ : CalTime
  location : Option String
  description : Option String
  deriving DecidableEq, Repr

/-- The request `calendar.events.list` receives
(src/tools/calendar.js lines 19-28). -/
structure CalendarListRequest where
  calendarId : String
  maxResults : Int
  timeMin : String
  timeMax : Option String
  singleEvents : Bool
  orderBy : String
  deriving DecidableEq, Repr

/-- Construction of the `calendar_list_events` request: `calendarId ||
'primary'`, `maxResults || 10`, `timeMin || new Date().toISOString()`
(the current time `now` is an environment input), and `timeMax` only when
truthy. -/
def calendarListRequest (now : String) (maxResults : Option Int)
    (timeMin timeMax calendarId : Option String) : CalendarListRequest :=
  { calendarId := jsOrStr calendarId "primary"
  , maxResults := jsOrNum maxResults 10
  , timeMin := jsOrStr timeMin now
  , timeMax := if strTruthy timeMax then timeMax else none
  , singleEvents := true
  , orderBy := "startTime" }

/-- One numbered entry of the listing
(src/tools/calendar.js lines 40-56), including the
`event.start.dateTime || event.start.date || 'No start time'` chains. -/
def formatCalEventEntry (i : Nat) (e : CalEvent) : String :=
  let start := jsOrStr (jsOrOpt e.start.dateTime e.start.date) "No start time"
  let stop := jsOrStr (jsOrOpt e.end_.dateTime e.end_.date) "No end time"
  let line := toString (i + 1) ++ ". " ++ jsOrStr e.summary "(No title)"
  let line := line ++ "\n   ID: " ++ jsShow e.id
  let line := line ++ "\n   Start: " ++ start
  let line := line ++ "\n   End: " ++ stop
  let line := if strTruthy e.location then line ++ "\n   Location: " ++ jsShow e.location else line
  let line := if strTruthy e.description then line ++ "\n   Description: " ++ jsShow e.description else line
  line

/-- The success text of `calendar_list_events`
(src/tools/calendar.js lines 33-66). -/
def calendarListText (events : List CalEvent) : String :=
  if events.length = 0 then "No upcoming events found."
  else
    "Found " ++ toString events.length ++ " event(s):\n\n" ++
      String.intercalate "\n\n"
        (events.enum.map (fun p => formatCalEventEntry p.1 p.2))

/-- The `calendar_list_events` handler (src/tools/calendar.js
lines 16-73): auth acquisition and the remote call run inside `try`;
any thrown error becomes the catch's flagged result. -/
def calendarListEventsHandler (auth : Except JsError OAuth2Client)
    (remote : CalendarListRequest → Except JsError (List CalEvent))
    (now : String) (maxResults : Option Int)
    (timeMin timeMax calendarId : Option String) : ToolResult :=
  match auth with
  | .error e => calendarErrorResult e
  | .ok _ =>
    match remote (calendarListRequest now maxResults timeMin timeMax calendarId) with
    | .error e => calendarErrorResult e
    | .ok events => success (calendarListText events)

/-! ## calendar_create_event (src/tools/calendar.js lines 124-185) -/

/-- The test `/^\d{4}-\d{2}-\d{2}$/.test(startTime)`
(src/tools/calendar.js line 139): exactly ten characters, digits in the
`YYYY-MM-DD` positions with dashes at indices 4 and 7. -/
def isDateOnly (s : String) : Bool :=
  match s.data with
  | [y1, y2, y3, y4, d1, m1, m2, d2, a1, a2] =>
      y1.isDigit && y2.isDigit && y3.isDigit && y4.isDigit &&
        d1 = '-' && m1.isDigit && m2.isDigit && d2 = '-' &&
        a1.isDigit && a2.isDigit
  | _ => false

/-- An event boundary as sent to the insert call: either a date-only
field or a dateTime field. -/
inductive EventTime where
  | date (s : String)
  | dateTime (s : String)
  deriving DecidableEq, Repr

/-- The event request body built by `calendar_create_event`
(src/tools/calendar.js lines 140-146). -/
structure EventBody where
  summary : String
  start : EventTime
  end_ : EventTime
  description : Option String
  location : Option String
  deriving DecidableEq, Repr

/-- Construction of the event body: the all-day decision is made from
`startTime` alone and applied to both boundaries; `description` and
`location` are attached only when truthy. -/
def buildCreateEventBody (summary startTime endTime : String)
    (description location : Option String) : EventBody :=
  let isAllDay := isDateOnly startTime
  { summary := summary
  , start := if isAllDay then .date startTime else .dateTime startTime
  , end_ := if isAllDay then .date endTime else .dateTime endTime
  , description := if strTruthy description then description else none
  , location := if strTruthy location then location else none }

/-- The request `calendar.events.insert` receives
(src/tools/calendar.js lines 148-151). -/
structure CalendarInsertRequest where
  calendarId : String
  requestBody : EventBody
  deriving DecidableEq, Repr

/-- Construction of the `calendar_create_event` remote request,
including the `calendarId || 'primary'` defaulting. -/
def calendarInsertRequest (summary startTime endTime : String)
    (description location calendarId : Option String) : CalendarInsertRequest :=
  { calendarId := jsOrStr calendarId "primary"
  , requestBody := buildCreateEventBody summary startTime endTime description location }

/-- The created event returned by the insert call, as used by the
success formatter. -/
structure CreatedEvent where
  id : Option String
  summary : Option String
  start : CalTime
  end_ : CalTime
  location : Option String
  description : Option String
  htmlLink : Option String
  deriving DecidableEq, Repr

/-- The success text of `calendar_create_event`
(src/tools/calendar.js lines 153-177): the line array with its
`filter(Boolean)` pruning of the conditional entries. -/
def createdEventText (created : CreatedEvent) : String :=
  let startDisplay := jsShow (jsOrOpt created.start.dateTime created.start.date)
  let endDisplay := jsShow (jsOrOpt created.end_.dateTime created.end_.date)
  let lines : List (Option String) :=
    [ some "Event created successfully!"
    , some ("  ID: " ++ jsShow created.id)
    , some ("  Summary: " ++ jsShow created.summary)
    , some ("  Start: " ++ startDisplay)
    , some ("  End: " ++ endDisplay)
    , if strTruthy created.location then some ("  Location: " ++ jsShow created.location) else none
    , if strTruthy created.description then some ("  Description: " ++ jsShow created.description) else none
    , some ("  Link: " ++ jsShow created.htmlLink) ]
  String.intercalate "\n" (lines.filterMap id)

/-- The `calendar_create_event` handler (src/tools/calendar.js
lines 135-184). -/
def calendarCreateEventHandler (auth : Except JsError OAuth2Client)
    (remote : CalendarInsertRequest → Except JsError CreatedEvent)
    (summary startTime endTime : String)
    (description location calendarId : Option String) : ToolResult :=
  match auth with
  | .error e => calendarErrorResult e
  | .ok _ =>
    match remote (calendarInsertRequest summary startTime endTime description location calendarId) with
    | .error e => calendarErrorResult e
    | .ok created => success (createdEventText created)

/-! ## Dispatch -/

/-- One tool invocation of the modelled handlers, packaged with its
arguments and the environment's outcomes for the auth acquisition and the
remote call. -/
inductive Invocation where
  | driveList (auth : Except JsError OAuth2Client)
      (remote : DriveListRequest → Except JsError (List DriveFile))
      (folderId : Option String) (maxResults : Option Int)
  | calendarListEvents (auth : Except JsError OAuth2Client)
      (remote : CalendarListRequest → Except JsError (List CalEvent))
      (now : String) (maxResults : Option Int)
      (timeMin timeMax calendarId : Option String)
  | calendarCreateEvent (auth : Except JsError OAuth2Client)
      (remote : CalendarInsertRequest → Except JsError CreatedEvent)
      (summary startTime endTime : String)
      (description location calendarId : Option String)

/-- Run the invoked handler. -/
def runInvocation : Invocation → ToolResult
  | .driveList auth remote folderId maxResults =>
      driveListHandler auth remote folderId maxResults
  | .calendarListEvents auth remote now maxResults timeMin timeMax calendarId =>
      calendarListEventsHandler auth remote now maxResults timeMin timeMax calendarId
  | .calendarCreateEvent auth remote summary startTime endTime description location calendarId =>
      calendarCreateEventHandler auth remote summary startTime endTime description location calendarId

/-- The exception (if any) thrown inside the handler's `try` block: the
auth acquisition's error, else the remote call's error. -/
def invocationThrown : Invocation → Option JsError
  | .driveList auth remote folderId maxResults =>
      match auth with
      | .error e => some e
      | .ok _ =>
        match remote (driveListRequest folderId maxResults) with
        | .error e => some e
        | .ok _ => none
  | .calendarListEvents auth remote now maxResults timeMin timeMax calendarId =>
      match auth with
      | .error e => some e
      | .ok _ =>
        match remote (calendarListRequest now maxResults timeMin timeMax calendarId) with
        | .error e => some e
        | .ok _ => none
  | .calendarCreateEvent auth remote summary startTime endTime description location calendarId =>
      match auth with
      | .error e => some e
      | .ok _ =>
        match remote (calendarInsertRequest summary startTime endTime description location calendarId) with
        | .error e => some e
        | .ok _ => none

/-- The server's dispatch table: the registered tool names. -/
structure ServerState where
  tools : List String
  deriving DecidableEq, Repr

/-- Dispatching one request: the handler runs and the dispatch table is
not touched (no handler references the server object). -/
def handleRequest (s : ServerState) (inv : Invocation) : ServerState × ToolResult :=
  (s, runInvocation inv)

/-! ## Claim-side predicate (escaping) -/

/-- Scan of a character list with the preceding character: `true` iff no
single-quote occurs except immediately after a backslash.  This formalizes
the claim that no unescaped single quote from the input appears in the
constructed query. -/
def quotesEscapedFrom (prev : Char) : List Char → Bool
  | [] => true
  | c :: cs => (c != squote || prev == backslash) && quotesEscapedFrom c cs

/-- `quotesEscapedFrom` started with a space (not a backslash). -/
def quotesEscaped (s : String) : Bool :=
  quotesEscapedFrom (Char.ofNat 32) s.data

/-! ## Concrete sample values used by counterexamples and witnesses -/

/-- A sample `JSON.parse` exception for a malformed cache file. -/
def sampleParseError : JsError :=
  { message := "Unexpected token n in JSON at position 0"
  , display := "SyntaxError: Unexpected token n in JSON at position 0" }

/-- A sample `readFileSync` exception for an unreadable cache file. -/
def sampleReadError : JsError :=
  { message := "EACCES: permission denied"
  , display := "Error: EACCES: permission denied" }

/-- A file system whose cache file exists but does not parse, with the
parent directory present and writes otherwise working. -/
def fsInvalid : Fs :=
  { dirExists := true, file := .invalid sampleParseError, writeFailure := none }

/-- A file system with no cache file and no parent directory. -/
def fsNoDir : Fs :=
  { dirExists := false, file := .absent, writeFailure := none }

/-- A sample refresh payload carrying only a new access token. -/
def ntSample : JsObj := [("access_token", .str "newAT")]

/-- A sample parsed cache file holding a refresh token. -/
def oldCache : JsObj :=
  [("access_token", .str "oldAT"), ("refresh_token", .str "RT"),
   ("token_type", .str "Bearer")]

/-- A sample refresh payload with a new access token and expiry but no
refresh token. -/
def refreshPayload : JsObj :=
  [("access_token", .str "newAT"), ("expiry_date", .num 1700000000000)]

/-- The client `getAuth` constructs on first call with an absent cache
file. -/
def clientAbsent : OAuth2Client :=
  { newOAuth2 "id" "secret" with listenerRegistered := true }

/-- Sample refreshed in-memory credentials. -/
def refreshedCreds : Credentials :=
  { access_token := some (.str "newAT"), refresh_token := some (.str "RT")
  , token_type := .str "Bearer", expiry_date := some (.num 1) }

/-- A sample thrown error for the handler-catch witness. -/
def errSample : JsError := { message := "boom", display := "Error: boom" }

/-- A sample invocation whose auth acquisition throws. -/
def invThrow0 : Invocation :=
  .driveList (.error errSample) (fun _ => .ok []) none none

/-- A sample dispatch table. -/
def srv0 : ServerState := { tools := modeledToolNames }

/-! ## Lemmas about object lookup and spread -/

theorem getKey_setKey_self (o : JsObj) (k : String) (v : JsVal) :
    getKey (setKey o k v) k = some v := by
  induction o with
  | nil => simp [setKey, getKey]
  | cons p rest ih =>
    obtain ⟨k2, w⟩ := p
    by_cases h : k2 = k
    · simp [setKey, h, getKey]
    · simp [setKey, h, getKey, ih]

theorem getKey_setKey_ne (o : JsObj) (k key : String) (v : JsVal)
    (h : key ≠ k) : getKey (setKey o k v) key = getKey o key := by
  induction o with
  | nil => simp [setKey, getKey, Ne.symm h]
  | cons p rest ih =>
    obtain ⟨k2, w⟩ := p
    by_cases h2 : k2 = k
    · subst h2
      simp [setKey, getKey, Ne.symm h]
    · simp only [setKey, if_neg h2, getKey, ih]

theorem spread_cons (a : JsObj) (k : String) (v : JsVal) (b : JsObj) :
    spread a ((k, v) :: b) = spread (setKey a k v) b := rfl

theorem getKey_eq_none (o : JsObj) (key : String)
    (h : key ∉ o.map Prod.fst) : getKey o key = none := by
  induction o with
  | nil => rfl
  | cons p rest ih =>
    simp only [List.map_cons, List.mem_cons] at h
    push_neg at h
    simp [getKey, ih h.2, Ne.symm h.1]

theorem getKey_spread_none : ∀ (b a : JsObj) (key : String),
    getKey b key = none → getKey (spread a b) key = getKey a key
  | [], _, _, _ => rfl
  | (k, v) :: bs, a, key, h => by
    have hk : ¬ k = key := by
      intro hh
      simp [getKey, hh] at h
    have htail : getKey bs key = none := by simpa [getKey, hk] using h
    rw [spread_cons, getKey_spread_none bs _ key htail,
      getKey_setKey_ne a k key v (fun hh => hk hh.symm)]

theorem getKey_spread_some : ∀ (b a : JsObj) (key : String) (v : JsVal),
    (b.map Prod.fst).Nodup → getKey b key = some v →
    getKey (spread a b) key = some v
  | [], _, _, _, _, h => by simp [getKey] at h
  | (k, w) :: bs, a, key, v, hnd, h => by
    simp only [List.map_cons, List.nodup_cons] at hnd
    by_cases hk : k = key
    · subst hk
      have hv : w = v := by simpa [getKey] using h
      subst hv
      have hnone : getKey bs k = none := getKey_eq_none bs k hnd.1
      rw [spread_cons, getKey_spread_none bs _ k hnone, getKey_setKey_self]
    · have htail : getKey bs key = some v := by simpa [getKey, hk] using h
      rw [spread_cons]
      exact getKey_spread_some bs _ key v hnd.2 htail

/-! ## Claim theorems -/

/-- C1.  The claim says `getAuth` must not raise for any cache-file state
(absent, unreadable, or unparseable).  Evaluating the model at the failing
input — a cache file present whose content `JSON.parse` rejects — shows the
exception propagates out of `getAuth` (src/auth.js line 27 runs outside any
try/catch), and likewise for an unreadable file; only the absent-file case
returns the client with default empty credentials. -/
theorem getAuth_raises_on_malformed_cache :
    getAuth "id" "secret" authInit (CacheFile.invalid sampleParseError) =
      ({ oauth2Client := some (newOAuth2 "id" "secret") },
        Except.error sampleParseError) ∧
    getAuth "id" "secret" authInit (CacheFile.unreadable sampleReadError) =
      ({ oauth2Client := some (newOAuth2 "id" "secret") },
        Except.error sampleReadError) ∧
    getAuth "id" "secret" authInit CacheFile.absent =
      ({ oauth2Client := some clientAbsent }, Except.ok clientAbsent) ∧
    clientAbsent.credentials = none :=
  ⟨rfl, rfl, rfl, rfl⟩

/-- C2 counterexample.  The claim says the listener treats an unparseable
file as the empty object and still writes the merged tokens.  At a cache
file whose content does not parse, the listener leaves the file unchanged
(no write occurs: the parse exception is caught) and logs the diagnostic
instead, so the written-merge the claim demands does not happen. -/
theorem listener_skips_write_on_unparseable_cache :
    (tokensListener fsInvalid ntSample).fs.file =
      CacheFile.invalid sampleParseError ∧
    (tokensListener fsInvalid ntSample).fs.file ≠
      CacheFile.parsed (spread [] ntSample) ∧
    (tokensListener fsInvalid ntSample).stderr =
      [tokenSaveLine sampleParseError.message] :=
  ⟨rfl, by decide, rfl⟩

/-- C2 amended.  On a refresh event the listener treats a missing file as
the empty object and writes the merge of the new token fields over the
existing object (new fields winning); when the existing file is present
but unreadable or unparseable, the thrown read/parse exception is caught,
one diagnostic line is logged to stderr, and no write occurs; a failure of
the write itself is likewise caught and logged, leaving the file
unchanged. -/
theorem tokensListener_cases (d : Bool) (wf : Option JsError)
    (o nt : JsObj) (e e2 : JsError) :
    (tokensListener ⟨d, CacheFile.absent, wf⟩ nt =
      if d then
        match wf with
        | none => ⟨⟨d, CacheFile.parsed (spread [] nt), wf⟩, []⟩
        | some we => ⟨⟨d, CacheFile.absent, wf⟩, [tokenSaveLine we.message]⟩
      else ⟨⟨d, CacheFile.absent, wf⟩, [tokenSaveLine enoentError.message]⟩) ∧
    (tokensListener ⟨d, CacheFile.parsed o, wf⟩ nt =
      if d then
        match wf with
        | none => ⟨⟨d, CacheFile.parsed (spread o nt), wf⟩, []⟩
        | some we => ⟨⟨d, CacheFile.parsed o, wf⟩, [tokenSaveLine we.message]⟩
      else ⟨⟨d, CacheFile.parsed o, wf⟩, [tokenSaveLine enoentError.message]⟩) ∧
    (tokensListener ⟨d, CacheFile.invalid e, wf⟩ nt =
      ⟨⟨d, CacheFile.invalid e, wf⟩, [tokenSaveLine e.message]⟩) ∧
    (tokensListener ⟨d, CacheFile.unreadable e2, wf⟩ nt =
      ⟨⟨d, CacheFile.unreadable e2, wf⟩, [tokenSaveLine e2.message]⟩) := by
  cases d <;> cases wf <;> exact ⟨rfl, rfl, rfl, rfl⟩

/-- C3.  A refresh payload carrying an access token but no refresh-token
key, merged by the listener over a parseable cache that held a refresh
token, persists a file whose refresh token is the previously stored value
and whose access token is the new value. -/
theorem refresh_preserves_refresh_token (o nt : JsObj) (v w : JsVal)
    (hnd : (nt.map Prod.fst).Nodup)
    (hold : getKey o "refresh_token" = some v)
    (hnew : getKey nt "refresh_token" = none)
    (hacc : getKey nt "access_token" = some w) :
    (tokensListener ⟨true, CacheFile.parsed o, none⟩ nt).fs.file =
      CacheFile.parsed (spread o nt) ∧
    getKey (spread o nt) "refresh_token" = some v ∧
    getKey (spread o nt) "access_token" = some w := by
  refine ⟨rfl, ?_, ?_⟩
  · rw [getKey_spread_none nt o _ hnew]
    exact hold
  · exact getKey_spread_some nt o _ w hnd hacc

/-- C3 witness at concrete cache and payload. -/
theorem refresh_preserves_refresh_token_witness :
    (tokensListener ⟨true, CacheFile.parsed oldCache, none⟩ refreshPayload).fs.file =
      CacheFile.parsed (spread oldCache refreshPayload) ∧
    getKey (spread oldCache refreshPayload) "refresh_token" = some (.str "RT") ∧
    getKey (spread oldCache refreshPayload) "access_token" = some (.str "newAT") :=
  refresh_preserves_refresh_token oldCache refreshPayload (.str "RT") (.str "newAT")
    (by decide) (by decide) (by decide) (by decide)

/-- C4.  Once a call to `getAuth` has returned a client, every later call
returns the very same client and the same module state, for any cache-file
state at the time of the later call — the file is not re-read and the
listener is not re-registered (the state, which records registration, is
unchanged). -/
theorem getAuth_stores_client (cid cs : String) (f : CacheFile)
    (g g2 : AuthGlobal) (c : OAuth2Client)
    (h : getAuth cid cs g f = (g2, Except.ok c)) :
    g2 = ⟨some c⟩ := by
  obtain ⟨gc⟩ := g
  cases gc with
  | some c0 =>
    simp only [getAuth, Prod.mk.injEq, Except.ok.injEq] at h
    rw [← h.1, h.2]
  | none =>
    cases f with
    | absent =>
      simp only [getAuth, Prod.mk.injEq, Except.ok.injEq] at h
      rw [← h.1, h.2]
    | unreadable e => simp [getAuth] at h
    | invalid e => simp [getAuth] at h
    | parsed o =>
      simp only [getAuth, Prod.mk.injEq, Except.ok.injEq] at h
      rw [← h.1, h.2]

/-- C4.  Once a call to `getAuth` has returned a client, every later call
returns the very same client and the same module state, whatever the
cache-file state at the time of the later call — the file is not re-read
and the listener is not re-registered (the module state, which records the
registration, is unchanged). -/
theorem getAuth_singleton (cid cs : String) (f f2 : CacheFile)
    (g g2 : AuthGlobal) (c : OAuth2Client)
    (h : getAuth cid cs g f = (g2, Except.ok c)) :
    getAuth cid cs g2 f2 = (g2, Except.ok c) := by
  have hg : g2 = ⟨some c⟩ := getAuth_stores_client cid cs f g g2 c h
  subst hg
  rfl

/-- C4 witness: the first call reads an absent cache file; the second call
sees an unparseable file yet still returns the cached client untouched. -/
theorem getAuth_singleton_witness :
    getAuth "id" "secret" { oauth2Client := some clientAbsent }
        (CacheFile.invalid sampleParseError) =
      ({ oauth2Client := some clientAbsent }, Except.ok clientAbsent) :=
  getAuth_singleton "id" "secret" CacheFile.absent
    (CacheFile.invalid sampleParseError) authInit
    { oauth2Client := some clientAbsent } clientAbsent rfl

/-- C5.  On a refresh event where the file is readable (absent or parsed)
but the listener's write throws — the parent directory is missing or the
write faults — the exception is caught, exactly one diagnostic line goes
to stderr, the file system is left as it was, and the client's refreshed
in-memory credentials are untouched (the listener body never references
the client). -/
theorem refresh_write_failure_logged_no_rollback
    (c : OAuth2Client) (newCreds : Credentials) (d : Bool)
    (wf : Option JsError) (f : CacheFile) (o nt : JsObj)
    (hfile : f = CacheFile.absent ∨ f = CacheFile.parsed o)
    (hthrow : d = false ∨ wf ≠ none) :
    (refreshEvent c newCreds ⟨d, f, wf⟩ nt).1.credentials = some newCreds ∧
    (∃ m, (refreshEvent c newCreds ⟨d, f, wf⟩ nt).2.stderr = [tokenSaveLine m]) ∧
    (refreshEvent c newCreds ⟨d, f, wf⟩ nt).2.fs = ⟨d, f, wf⟩ := by
  rcases hfile with h | h <;> subst h <;> cases d <;> rcases wf with _ | we <;>
    try exact ⟨rfl, ⟨enoentError.message, rfl⟩, rfl⟩
  all_goals try exact ⟨rfl, ⟨we.message, rfl⟩, rfl⟩
  all_goals (rcases hthrow with h2 | h2 <;> exact absurd h2 (by decide))

/-- C5 witness: refresh with the parent directory missing. -/
theorem refresh_write_failure_logged_no_rollback_witness :
    (refreshEvent clientAbsent refreshedCreds fsNoDir ntSample).1.credentials =
      some refreshedCreds ∧
    (∃ m, (refreshEvent clientAbsent refreshedCreds fsNoDir ntSample).2.stderr =
      [tokenSaveLine m]) ∧
    (refreshEvent clientAbsent refreshedCreds fsNoDir ntSample).2.fs = fsNoDir :=
  refresh_write_failure_logged_no_rollback clientAbsent refreshedCreds false none
    CacheFile.absent [] ntSample (Or.inl rfl) (Or.inl rfl)

/-- C6 counterexample.  Both environment variables are present (one set to
the empty string), yet the process still terminates with exit code 1
before registering anything: the code tests JavaScript falsiness, not
absence, so "if both are present, no such termination occurs" fails. -/
theorem startup_exits_on_present_empty_client_id :
    startServer (some "") (some "secret") =
      { exitCode := some 1, stderr := [requiredEnvMessage]
      , toolsRegistered := [], connected := false } ∧
    (some "" : Option String) ≠ none ∧
    (some "secret" : Option String) ≠ none :=
  ⟨rfl, by simp, by simp⟩

/-- C6 amended.  The process exits with code 1 and the diagnostic, before
any tool registration and before the transport connects, exactly when
either variable is unset or set to the empty string; otherwise startup
registers the tools and connects. -/
theorem startup_check_amended (cid cs : Option String) :
    startServer cid cs =
      if cid = none ∨ cid = some "" ∨ cs = none ∨ cs = some "" then
        { exitCode := some 1, stderr := [requiredEnvMessage]
        , toolsRegistered := [], connected := false }
      else
        { exitCode := none, stderr := []
        , toolsRegistered := modeledToolNames, connected := true } := by
  rcases cid with _ | s
  · simp [startServer, jsFalsyEnv]
  · rcases cs with _ | t
    · simp [startServer, jsFalsyEnv]
    · by_cases hs : s = ""
      · subst hs
        simp [startServer, jsFalsyEnv]
      · by_cases ht : t = ""
        · subst ht
          simp [startServer, jsFalsyEnv, hs]
        · simp [startServer, jsFalsyEnv, hs, ht]

/-- C8 counterexample.  With no cache file and no parent directory, the
first refresh event does not create the directory and its write does not
succeed: the ENOENT exception is caught and logged and nothing is
persisted, contradicting the claimed lazy directory creation. -/
theorem refresh_write_fails_without_directory :
    (tokensListener fsNoDir ntSample).fs = fsNoDir ∧
    (tokensListener fsNoDir ntSample).fs.dirExists = false ∧
    (tokensListener fsNoDir ntSample).stderr =
      [tokenSaveLine enoentError.message] :=
  ⟨rfl, rfl, rfl⟩

/-- C8 amended.  Startup with an absent cache file succeeds without
touching the cache path (`getAuth` only returns the fresh client), and the
refresh listener never creates the parent directory: it preserves
`dirExists` in every case, a refresh with the directory missing fails its
write (caught and logged, nothing persisted), and a refresh with the
directory present writes the merged file. -/
theorem no_lazy_directory_creation (cid cs : String) (nt : JsObj)
    (d : Bool) (f : CacheFile) (wf : Option JsError) :
    (getAuth cid cs authInit CacheFile.absent).2 =
      Except.ok { newOAuth2 cid cs with listenerRegistered := true } ∧
    (tokensListener ⟨d, f, wf⟩ nt).fs.dirExists = d ∧
    (tokensListener ⟨false, CacheFile.absent, none⟩ nt =
      ⟨⟨false, CacheFile.absent, none⟩, [tokenSaveLine enoentError.message]⟩) ∧
    (tokensListener ⟨true, CacheFile.absent, none⟩ nt =
      ⟨⟨true, CacheFile.parsed (spread [] nt), none⟩, []⟩) := by
  refine ⟨rfl, ?_, rfl, rfl⟩
  cases f <;> cases d <;> rcases wf with _ | we <;> rfl

/-- C9 counterexample.  `drive_list` invoked with the empty string as
`folderId`: the claim's formula demands the query quote the escaped empty
string, but `folderId || 'root'` replaces the (present) empty string with
`root`, so the issued query is the root query instead. -/
theorem drive_list_empty_folder_id_uses_root :
    driveListQuery (some "") ≠
      String.singleton squote ++ escapeQuotes "" ++ String.singleton squote ++
        " in parents and trashed = false" ∧
    driveListQuery (some "") = driveListQuery none := by
  constructor
  · decide
  · rfl

theorem quotesEscapedFrom_escChars :
    ∀ (cs : List Char) (prev : Char),
      quotesEscapedFrom prev (escChars cs) = true := by
  intro cs
  induction cs with
  | nil => intro prev; rfl
  | cons c cs ih =>
    intro prev
    have h1 : (backslash != squote) = true := by decide
    have h2 : (backslash == backslash) = true := by decide
    by_cases hc : c = squote
    · subst hc
      simp [escChars, quotesEscapedFrom, h1, h2, ih]
    · simp [escChars, hc, quotesEscapedFrom, ih]

/-- C9 amended.  The query `drive_list` issues is exactly the single-quoted
escaped folder id followed by `in parents and trashed = false`, where an
omitted **or empty** `folderId` becomes `root`; and the escaped part
contains no single quote except immediately after a backslash. -/
theorem drive_list_query_amended (folderId : Option String) (mr : Option Int) :
    (driveListRequest folderId mr).q =
      String.singleton squote ++
        escapeQuotes
          (match folderId with
           | none => "root"
           | some s => if s = "" then "root" else s) ++
        String.singleton squote ++ " in parents and trashed = false" ∧
    quotesEscaped (escapeQuotes (driveListFolder folderId)) = true := by
  constructor
  · rcases folderId with _ | s
    · rfl
    · by_cases hs : s = ""
      · subst hs; rfl
      · simp [driveListRequest, driveListQuery, driveListFolder, jsOrStr, hs]
  · exact quotesEscapedFrom_escChars (driveListFolder folderId).data (Char.ofNat 32)

/-- C10.  The event body sent by `calendar_create_event` carries date-only
start and end fields exactly when `startTime` matches `YYYY-MM-DD`; the
shape of `endTime` plays no role, and both boundaries follow the decision
made from `startTime` alone. -/
theorem calendar_create_event_allday (summary startTime endTime : String)
    (description location calendarId : Option String) :
    ((calendarInsertRequest summary startTime endTime description location
        calendarId).requestBody.start =
      if isDateOnly startTime then EventTime.date startTime
      else EventTime.dateTime startTime) ∧
    ((calendarInsertRequest summary startTime endTime description location
        calendarId).requestBody.end_ =
      if isDateOnly startTime then EventTime.date endTime
      else EventTime.dateTime endTime) ∧
    ((∃ d1 d2,
        (calendarInsertRequest summary startTime endTime description location
          calendarId).requestBody.start = EventTime.date d1 ∧
        (calendarInsertRequest summary startTime endTime description location
          calendarId).requestBody.end_ = EventTime.date d2) ↔
      isDateOnly startTime = true) := by
  cases h : isDateOnly startTime <;>
    simp [calendarInsertRequest, buildCreateEventBody, h]

theorem dataAppend (a b : String) : (a ++ b).data = a.data ++ b.data := by
  cases a; cases b; rfl

theorem errorResult_contains_message (e : JsError) :
    ∃ l r, (errorResult e).text.data = l ++ e.message.data ++ r := by
  by_cases hm : e.message = ""
  · refine ⟨[], (errorResult e).text.data, ?_⟩
    simp [hm]
  · refine ⟨"Error: ".data, [], ?_⟩
    have hd : driveErrorText e = e.message := by simp [driveErrorText, hm]
    simp [errorResult, hd, dataAppend]

theorem calendarErrorResult_contains_message (e : JsError) :
    ∃ l r, (calendarErrorResult e).text.data = l ++ e.message.data ++ r := by
  refine ⟨"Error: ".data, [], ?_⟩
  simp [calendarErrorResult, dataAppend]

/-- C7.  For each modelled handler, whenever acquiring the auth handle or
issuing the remote call throws, the handler returns a result flagged
`isError` whose text contains the thrown message, and dispatching it
leaves the server's tool table unchanged — the process keeps serving. -/
theorem handler_thrown_is_caught (s : ServerState) (inv : Invocation)
    (e : JsError) (h : invocationThrown inv = some e) :
    (handleRequest s inv).1 = s ∧
    (handleRequest s inv).2.isError = true ∧
    ∃ l r, (handleRequest s inv).2.text.data = l ++ e.message.data ++ r := by
  cases inv with
  | driveList auth remote folderId maxResults =>
    cases auth with
    | error e2 =>
      have he : e2 = e := by simpa [invocationThrown] using h
      subst he
      exact ⟨rfl, rfl, errorResult_contains_message e2⟩
    | ok c =>
      cases hr : remote (driveListRequest folderId maxResults) with
      | error e2 =>
        have he : e2 = e := by simpa [invocationThrown, hr] using h
        subst he
        refine ⟨rfl, ?_, ?_⟩
        · simp [handleRequest, runInvocation, driveListHandler, hr, errorResult]
        · simpa [handleRequest, runInvocation, driveListHandler, hr] using
            errorResult_contains_message e2
      | ok files => simp [invocationThrown, hr] at h
  | calendarListEvents auth remote now maxResults timeMin timeMax calendarId =>
    cases auth with
    | error e2 =>
      have he : e2 = e := by simpa [invocationThrown] using h
      subst he
      exact ⟨rfl, rfl, calendarErrorResult_contains_message e2⟩
    | ok c =>
      cases hr : remote (calendarListRequest now maxResults timeMin timeMax calendarId) with
      | error e2 =>
        have he : e2 = e := by simpa [invocationThrown, hr] using h
        subst he
        refine ⟨rfl, ?_, ?_⟩
        · simp [handleRequest, runInvocation, calendarListEventsHandler, hr,
            calendarErrorResult]
        · simpa [handleRequest, runInvocation, calendarListEventsHandler, hr] using
            calendarErrorResult_contains_message e2
      | ok events => simp [invocationThrown, hr] at h
  | calendarCreateEvent auth remote summary startTime endTime description location calendarId =>
    cases auth with
    | error e2 =>
      have he : e2 = e := by simpa [invocationThrown] using h
      subst he
      exact ⟨rfl, rfl, calendarErrorResult_contains_message e2⟩
    | ok c =>
      cases hr : remote (calendarInsertRequest summary startTime endTime description location calendarId) with
      | error e2 =>
        have he : e2 = e := by simpa [invocationThrown, hr] using h
        subst he
        refine ⟨rfl, ?_, ?_⟩
        · simp [handleRequest, runInvocation, calendarCreateEventHandler, hr,
            calendarErrorResult]
        · simpa [handleRequest, runInvocation, calendarCreateEventHandler, hr] using
            calendarErrorResult_contains_message e2
      | ok created => simp [invocationThrown, hr] at h

/-- C7 witness: a `drive_list` invocation whose auth acquisition throws. -/
theorem handler_thrown_is_caught_witness :
    (handleRequest srv0 invThrow0).1 = srv0 ∧
    (handleRequest srv0 invThrow0).2.isError = true ∧
    ∃ l r, (handleRequest srv0 invThrow0).2.text.data =
      l ++ errSample.message.data ++ r :=
  handler_thrown_is_caught srv0 invThrow0 errSample rfl

end GoogleMcp
